import Mathlib

/-!
Shallow embedding of the WebLN adapter (`src/webln/src/lib.rs`).

JavaScript dynamic values crossing the wasm boundary are modelled by the
inductive `Webln.JsValue`; plain data objects are association lists of
string keys.  The host (`window.webln`) is modelled by `Webln.Host`, a
table from method names to callable stubs; a stub either rejects with a
`JsValue` (covering both a throwing call and a rejected promise, which the
source funnels through the same `From<JsValue> for Error` conversion) or
resolves to a `JsValue`.  Each dispatcher method of the `WebLN` facade is
embedded as a function from a `Host` and its arguments to the `Result`
the Rust method produces, paired with the ordered list of host events
(method resolutions and host invocations) the call performs.
-/

namespace Webln

/-- A JavaScript dynamic value.  Objects are association lists of fields;
this models the plain data objects the provider exchanges (no getters, no
prototype tricks), which is what the adapter's `Reflect::get`-based
decoding observes. -/
inductive JsValue where
  | undefined : JsValue
  | null : JsValue
  | boolVal (b : Bool) : JsValue
  | num (x : Rat) : JsValue
  | str (s : String) : JsValue
  | arr (elems : List JsValue) : JsValue
  | obj (fields : List (String × JsValue)) : JsValue

/-- `JsValue::as_string`: `some` exactly on JS strings. -/
def JsValue.asString : JsValue → Option String
  | .str s => some s
  | _ => none

/-- `JsValue::as_bool`: `some` exactly on JS booleans. -/
def JsValue.asBool : JsValue → Option Bool
  | .boolVal b => some b
  | _ => none

/-- `JsValue::as_f64`: `some` exactly on JS numbers (numbers are modelled
as rationals; none of the verified claims depends on float rounding). -/
def JsValue.asF64 : JsValue → Option Rat
  | .num x => some x
  | _ => none

/-- `JsValue::is_object`: true for object-shaped values (arrays included,
as in JS, where `typeof` an array is "object"). -/
def JsValue.isObject : JsValue → Bool
  | .obj _ => true
  | .arr _ => true
  | _ => false

/-- `dyn_into::<Object>()` on a plain data value: succeeds exactly on
objects (the decoders only ever receive plain data objects here). -/
def JsValue.dynIntoObject : JsValue → Option (List (String × JsValue))
  | .obj fields => some fields
  | _ => none

/-- `dyn_into::<Array>()`: checked cast, succeeds exactly on arrays. -/
def JsValue.dynIntoArray : JsValue → Option (List JsValue)
  | .arr elems => some elems
  | _ => none

/-- The unchecked `.into::<Array>()` cast used for the `methods` field:
a genuine array yields its elements; any other value is blindly treated
as an array and iterated through its (absent) `length`, which the model
renders as the empty iteration. -/
def JsValue.uncheckedIntoArray : JsValue → List JsValue
  | .arr elems => elems
  | _ => []

/-- Property read on a data object: a missing key reads as `undefined`,
exactly as `Reflect::get` behaves on a plain object. -/
def objGet (fields : List (String × JsValue)) (key : String) : JsValue :=
  (fields.lookup key).getD JsValue.undefined

/-- Does `cs` start with `needle`?  (Char-list helper for the substring
check; Rust `str::contains`.) -/
def listStartsWith : List Char → List Char → Bool
  | [], _ => true
  | _ :: _, [] => false
  | c :: cs, d :: ds => c == d && listStartsWith cs ds

/-- Does `hay` contain `needle` as a contiguous run?  (Rust
`str::contains` on char lists.) -/
def listContainsSub (needle : List Char) : List Char → Bool
  | [] => needle.isEmpty
  | c :: rest => listStartsWith needle (c :: rest) || listContainsSub needle rest

/-- Rust `String::contains(pat)` for a string pattern. -/
def strContainsSub (s pat : String) : Bool :=
  listContainsSub pat.toList s.toList

/-- The WebLN error enumeration (`enum Error`). -/
inductive Error where
  | wasm (e : String) : Error
  | noGlobalWindowObject : Error
  | namespaceNotFound (n : String) : Error
  | objectKeyNotFound (n : String) : Error
  | typeMismatch (e : String) : Error
  | userRejected : Error
  | emptyInvoice : Error
  | somethingGoneWrong : Error
deriving DecidableEq

/-- The `format!("\x7be:?\x7d")` rendering of a `JsValue` used by the
error conversion.  Primitive values follow wasm-bindgen's `Debug` output;
the host's rendering of object-shaped values is environment-dependent and
is modelled by an opaque structural tag — the classifier below depends
only on whether the rendered string contains the user-refusal substring. -/
def JsValue.debugFmt : JsValue → String
  | .str s => "JsValue(\"" ++ s ++ "\")"
  | .boolVal true => "JsValue(true)"
  | .boolVal false => "JsValue(false)"
  | .num x => "JsValue(" ++ toString x ++ ")"
  | .null => "JsValue(null)"
  | .undefined => "JsValue(undefined)"
  | .arr _ => "JsValue(Array)"
  | .obj _ => "JsValue(Object)"

/-- `impl From<JsValue> for Error`: stringify the failure value and
reclassify a user-refusal signal; every other failure is wrapped as the
generic `Wasm` kind carrying the rendered string. -/
def Error.fromJs (e : JsValue) : Error :=
  let error : String := e.debugFmt
  if strContainsSub error "User rejected" then Error.userRejected
  else Error.wasm error

/-- `fn get_value_by_key`: `Reflect::get` wrapped into the adapter's
error channel.  On the plain data objects of this model the read cannot
throw, so the `ObjectKeyNotFound` branch of the source is unreachable;
a missing key surfaces as `undefined`. -/
def get_value_by_key (obj : List (String × JsValue)) (key : String) :
    Except Error JsValue :=
  Except.ok (objGet obj key)

def IS_ENABLED : String := "isEnabled"

def ENABLE : String := "enable"

def GET_INFO : String := "getInfo"

def KEYSEND : String := "keysend"

def MAKE_INVOICE : String := "makeInvoice"

def SEND_PAYMENT : String := "sendPayment"

def SEND_MULTI_PAYMENT : String := "sendMultiPayment"

def SEND_PAYMENT_ASYNC : String := "sendPaymentAsync"

def SIGN_MESSAGE : String := "signMessage"

def VERIFY_MESSAGE : String := "verifyMessage"

def REQUEST : String := "request"

def LNURL : String := "lnurl"

def ON : String := "on"

def OFF : String := "off"

def GET_BALANCE : String := "getBalance"

/-- `enum GetInfoMethod`: the known capability identifiers plus the open
`other` variant. -/
inductive GetInfoMethod where
  | isEnabled | enable | getInfo | keysend | makeInvoice | sendPayment
  | sendMultiPayment | sendPaymentAsync | signMessage | verifyMessage
  | request | lnurl | on | off | getBalance
  | other (s : String)
deriving DecidableEq

/-- `impl From<&str> for GetInfoMethod`: match each known literal, fall
back to the open variant carrying the string. -/
def GetInfoMethod.fromStr (method : String) : GetInfoMethod :=
  if method = IS_ENABLED then GetInfoMethod.isEnabled
  else if method = ENABLE then GetInfoMethod.enable
  else if method = GET_INFO then GetInfoMethod.getInfo
  else if method = KEYSEND then GetInfoMethod.keysend
  else if method = MAKE_INVOICE then GetInfoMethod.makeInvoice
  else if method = SEND_PAYMENT then GetInfoMethod.sendPayment
  else if method = SEND_MULTI_PAYMENT then GetInfoMethod.sendMultiPayment
  else if method = SEND_PAYMENT_ASYNC then GetInfoMethod.sendPaymentAsync
  else if method = SIGN_MESSAGE then GetInfoMethod.signMessage
  else if method = VERIFY_MESSAGE then GetInfoMethod.verifyMessage
  else if method = REQUEST then GetInfoMethod.request
  else if method = LNURL then GetInfoMethod.lnurl
  else if method = ON then GetInfoMethod.on
  else if method = OFF then GetInfoMethod.off
  else if method = GET_BALANCE then GetInfoMethod.getBalance
  else GetInfoMethod.other method

/-- `impl fmt::Display for GetInfoMethod`: each known variant prints its
literal; the open variant prints its carried string verbatim. -/
def GetInfoMethod.toStr : GetInfoMethod → String
  | .isEnabled => IS_ENABLED
  | .enable => ENABLE
  | .getInfo => GET_INFO
  | .keysend => KEYSEND
  | .makeInvoice => MAKE_INVOICE
  | .sendPayment => SEND_PAYMENT
  | .sendMultiPayment => SEND_MULTI_PAYMENT
  | .sendPaymentAsync => SEND_PAYMENT_ASYNC
  | .signMessage => SIGN_MESSAGE
  | .verifyMessage => VERIFY_MESSAGE
  | .request => REQUEST
  | .lnurl => LNURL
  | .on => ON
  | .off => OFF
  | .getBalance => GET_BALANCE
  | .other o => o

/-- The fifteen known method literals, in source order. -/
def knownMethodLiterals : List String :=
  [IS_ENABLED, ENABLE, GET_INFO, KEYSEND, MAKE_INVOICE, SEND_PAYMENT,
   SEND_MULTI_PAYMENT, SEND_PAYMENT_ASYNC, SIGN_MESSAGE, VERIFY_MESSAGE,
   REQUEST, LNURL, ON, OFF, GET_BALANCE]

/-- `struct GetInfoNode`: optional alias, pubkey and color. -/
structure GetInfoNode where
  aliasName : Option String
  pubkey : Option String
  color : Option String
deriving DecidableEq

/-- `struct GetInfoResponse`. -/
structure GetInfoResponse where
  node : GetInfoNode
  methods : List GetInfoMethod
deriving DecidableEq

/-- `GetInfoResponse::deserialize`: the top level and the `node` field
must be objects; the three node fields are read permissively through
`as_string`; the `methods` value is uncheckedly cast to an array whose
non-string entries are dropped by `filter_map` before mapping each string
through the capability parser. -/
def GetInfoResponse.deserialize (value : JsValue) : Except Error GetInfoResponse :=
  match value.dynIntoObject with
  | none => Except.error Error.somethingGoneWrong
  | some getInfoObj =>
    match get_value_by_key getInfoObj "node" with
    | Except.error e => Except.error e
    | Except.ok nodeVal =>
      match nodeVal.dynIntoObject with
      | none => Except.error Error.somethingGoneWrong
      | some nodeObj =>
        match get_value_by_key nodeObj "alias" with
        | Except.error e => Except.error e
        | Except.ok aliasVal =>
          match get_value_by_key nodeObj "pubkey" with
          | Except.error e => Except.error e
          | Except.ok pubkeyVal =>
            match get_value_by_key nodeObj "color" with
            | Except.error e => Except.error e
            | Except.ok colorVal =>
              match get_value_by_key getInfoObj "methods" with
              | Except.error e => Except.error e
              | Except.ok methodsVal =>
                Except.ok
                  ⟨⟨aliasVal.asString, pubkeyVal.asString, colorVal.asString⟩,
                   (methodsVal.uncheckedIntoArray.filterMap JsValue.asString).map
                     (fun m => GetInfoMethod.fromStr m)⟩

/-- `struct SendPaymentResponse`: the single required preimage string. -/
structure SendPaymentResponse where
  preimage : String
deriving DecidableEq

/-- `SendPaymentResponse::deserialize` (used by both `send_payment` and
`keysend`): the value must be an object whose `preimage` field is a
string. -/
def SendPaymentResponse.deserialize (value : JsValue) : Except Error SendPaymentResponse :=
  match value.dynIntoObject with
  | none => Except.error Error.somethingGoneWrong
  | some sendPaymentObj =>
    match get_value_by_key sendPaymentObj "preimage" with
    | Except.error e => Except.error e
    | Except.ok preimageVal =>
      match preimageVal.asString with
      | some preimage => Except.ok ⟨preimage⟩
      | none => Except.error (Error.typeMismatch "expected a string [preimage]")

/-- `struct SendMultiPaymentSingle`. -/
structure SendMultiPaymentSingle where
  payment_request : String
  response : SendPaymentResponse
deriving DecidableEq

/-- `struct SendMultiPaymentError`. -/
structure SendMultiPaymentError where
  payment_request : String
  message : String
deriving DecidableEq

/-- `SendMultiPaymentError::deserialize`: an object with required string
fields `paymentRequest` and `message`. -/
def SendMultiPaymentError.deserialize (value : JsValue) : Except Error SendMultiPaymentError :=
  match value.dynIntoObject with
  | none => Except.error Error.somethingGoneWrong
  | some errorObj =>
    match get_value_by_key errorObj "paymentRequest" with
    | Except.error e => Except.error e
    | Except.ok prVal =>
      match prVal.asString with
      | none => Except.error (Error.typeMismatch "expected a string [paymentRequest]")
      | some payment_request =>
        match get_value_by_key errorObj "message" with
        | Except.error e => Except.error e
        | Except.ok msgVal =>
          match msgVal.asString with
          | none => Except.error (Error.typeMismatch "expected a string [message]")
          | some message => Except.ok ⟨payment_request, message⟩

/-- `struct SendMultiPaymentResponse`. -/
structure SendMultiPaymentResponse where
  payments : List SendMultiPaymentSingle
  errors : List SendMultiPaymentError
deriving DecidableEq

/-- The `for` loop of `SendMultiPaymentResponse::deserialize`: each
element is decoded with `?`, so the first failing element aborts the
whole list with its error. -/
def deserializeMultiErrors : List JsValue → Except Error (List SendMultiPaymentError)
  | [] => Except.ok []
  | e :: rest =>
    match SendMultiPaymentError.deserialize e with
    | Except.error err => Except.error err
    | Except.ok one =>
      match deserializeMultiErrors rest with
      | Except.error err => Except.error err
      | Except.ok more => Except.ok (one :: more)

/-- `SendMultiPaymentResponse::deserialize`: reads only `errors` (a
checked array cast whose failure is routed through `From<JsValue> for
Error` by `?`); the `payments` success list is left empty (`// TODO` in
the source). -/
def SendMultiPaymentResponse.deserialize (value : JsValue) :
    Except Error SendMultiPaymentResponse :=
  match value.dynIntoObject with
  | none => Except.error Error.somethingGoneWrong
  | some obj =>
    match get_value_by_key obj "errors" with
    | Except.error e => Except.error e
    | Except.ok errsVal =>
      match errsVal.dynIntoArray with
      | none => Except.error (Error.fromJs errsVal)
      | some jsErrors =>
        match deserializeMultiErrors jsErrors with
        | Except.error e => Except.error e
        | Except.ok errors => Except.ok ⟨[], errors⟩

/-- `struct RequestInvoiceArgs`: five independent optional fields (the
unsigned 64-bit amounts are modelled as naturals; no claim involves
overflow). -/
structure RequestInvoiceArgs where
  amount : Option Nat
  default_amount : Option Nat
  minimum_amount : Option Nat
  maximum_amount : Option Nat
  default_memo : Option String
deriving DecidableEq

/-- `Reflect::set` on a freshly created object: the keys written are
pairwise distinct, so each set appends one field. -/
def objSet (o : List (String × JsValue)) (key : String) (v : JsValue) :
    List (String × JsValue) :=
  o ++ [(key, v)]

/-- `impl TryFrom<&RequestInvoiceArgs> for Object`: starting from an
empty object, write each populated optional field in source order under
its camelCase key, amounts as base-10 decimal strings.  On the plain
fresh object of this model `Reflect::set` cannot throw, so the source's
error channel is unreachable and the result is total. -/
def requestInvoiceArgsToObject (args : RequestInvoiceArgs) : List (String × JsValue) :=
  let obj : List (String × JsValue) := []
  let obj := match args.amount with
    | some amount => objSet obj "amount" (JsValue.str (Nat.repr amount))
    | none => obj
  let obj := match args.default_amount with
    | some default_amount => objSet obj "defaultAmount" (JsValue.str (Nat.repr default_amount))
    | none => obj
  let obj := match args.minimum_amount with
    | some minimum_amount => objSet obj "minimumAmount" (JsValue.str (Nat.repr minimum_amount))
    | none => obj
  let obj := match args.maximum_amount with
    | some maximum_amount => objSet obj "maximumAmount" (JsValue.str (Nat.repr maximum_amount))
    | none => obj
  let obj := match args.default_memo with
    | some default_memo => objSet obj "defaultMemo" (JsValue.str default_memo)
    | none => obj
  obj

/-- `struct RequestInvoiceResponse`: the single required BOLT-11 string. -/
structure RequestInvoiceResponse where
  payment_request : String
deriving DecidableEq

/-- `RequestInvoiceResponse::deserialize`: an object whose
`paymentRequest` field is a string. -/
def RequestInvoiceResponse.deserialize (value : JsValue) :
    Except Error RequestInvoiceResponse :=
  match value.dynIntoObject with
  | none => Except.error Error.somethingGoneWrong
  | some obj =>
    match get_value_by_key obj "paymentRequest" with
    | Except.error e => Except.error e
    | Except.ok prVal =>
      match prVal.asString with
      | some payment_request => Except.ok ⟨payment_request⟩
      | none => Except.error (Error.typeMismatch "expected a string [paymentRequest]")

/-- `struct SignMessageResponse`. -/
structure SignMessageResponse where
  message : String
  signature : String
deriving DecidableEq

/-- `SignMessageResponse::deserialize`: an object whose `message` and
`signature` fields are both required strings — the `message` field is
read back from the provider's result object. -/
def SignMessageResponse.deserialize (value : JsValue) : Except Error SignMessageResponse :=
  match value.dynIntoObject with
  | none => Except.error Error.somethingGoneWrong
  | some obj =>
    match get_value_by_key obj "message" with
    | Except.error e => Except.error e
    | Except.ok msgVal =>
      match msgVal.asString with
      | none => Except.error (Error.typeMismatch "expected a string [message]")
      | some message =>
        match get_value_by_key obj "signature" with
        | Except.error e => Except.error e
        | Except.ok sigVal =>
          match sigVal.asString with
          | none => Except.error (Error.typeMismatch "expected a string [signature]")
          | some signature => Except.ok ⟨message, signature⟩

/-- `struct BalanceResponse`. -/
structure BalanceResponse where
  balance : Rat
  currency : Option String
deriving DecidableEq

/-- `BalanceResponse::deserialize`: `balance` is a required number,
`currency` is read permissively through `as_string`. -/
def BalanceResponse.deserialize (value : JsValue) : Except Error BalanceResponse :=
  match value.dynIntoObject with
  | none => Except.error Error.somethingGoneWrong
  | some balanceResponseObj =>
    match get_value_by_key balanceResponseObj "balance" with
    | Except.error e => Except.error e
    | Except.ok balVal =>
      match balVal.asF64 with
      | none => Except.error (Error.typeMismatch "expected a number [balance]")
      | some balance =>
        match get_value_by_key balanceResponseObj "currency" with
        | Except.error e => Except.error e
        | Except.ok curVal => Except.ok ⟨balance, curVal.asString⟩

/-- A provider method stub: called with `none` (a `call0`) or `some arg`
(a `call1`), it either fails with a `JsValue` (a throwing call or a
rejected promise — both flow through `From<JsValue> for Error` in the
source) or resolves to a `JsValue`. -/
def HostFunc : Type := Option JsValue → Except JsValue JsValue

/-- The `window.webln` provider object, abstracted to what the
dispatcher observes: a table from method names to callable stubs (a name
mapped to `none` models a property that is absent or not a function). -/
structure Host where
  methods : String → Option HostFunc

/-- One observable interaction with the host: resolving a method
property, or invoking a resolved method with its optional argument. -/
inductive HostEvent where
  | resolve (name : String) : HostEvent
  | invoke (name : String) (arg : Option JsValue) : HostEvent

/-- `WebLN::get_func`: property lookup that must yield a callable, else
`NamespaceNotFound` with the method name. -/
def WebLN.get_func (h : Host) (name : String) : Except Error HostFunc :=
  match h.methods name with
  | some f => Except.ok f
  | none => Except.error (Error.namespaceNotFound name)

/-- `WebLN::send_payment`: the empty-invoice pre-check runs before the
method is even resolved; then one `call1` with the raw invoice string,
whose result is decoded as a `SendPaymentResponse`.  The second
component is the ordered host-event trace of the call. -/
def WebLN.send_payment (h : Host) (invoice : String) :
    Except Error SendPaymentResponse × List HostEvent :=
  if invoice = "" then (Except.error Error.emptyInvoice, [])
  else
    match WebLN.get_func h SEND_PAYMENT with
    | Except.error e => (Except.error e, [HostEvent.resolve SEND_PAYMENT])
    | Except.ok f =>
      match f (some (JsValue.str invoice)) with
      | Except.error ev =>
        (Except.error (Error.fromJs ev),
         [HostEvent.resolve SEND_PAYMENT,
          HostEvent.invoke SEND_PAYMENT (some (JsValue.str invoice))])
      | Except.ok result =>
        (SendPaymentResponse.deserialize result,
         [HostEvent.resolve SEND_PAYMENT,
          HostEvent.invoke SEND_PAYMENT (some (JsValue.str invoice))])

/-- `WebLN::send_payment_async`: same empty-invoice pre-check; the raw
result is only required to be object-shaped, no field is decoded. -/
def WebLN.send_payment_async (h : Host) (invoice : String) :
    Except Error Unit × List HostEvent :=
  if invoice = "" then (Except.error Error.emptyInvoice, [])
  else
    match WebLN.get_func h SEND_PAYMENT_ASYNC with
    | Except.error e => (Except.error e, [HostEvent.resolve SEND_PAYMENT_ASYNC])
    | Except.ok f =>
      match f (some (JsValue.str invoice)) with
      | Except.error ev =>
        (Except.error (Error.fromJs ev),
         [HostEvent.resolve SEND_PAYMENT_ASYNC,
          HostEvent.invoke SEND_PAYMENT_ASYNC (some (JsValue.str invoice))])
      | Except.ok result =>
        (if result.isObject then Except.ok () else Except.error Error.somethingGoneWrong,
         [HostEvent.resolve SEND_PAYMENT_ASYNC,
          HostEvent.invoke SEND_PAYMENT_ASYNC (some (JsValue.str invoice))])

/-- `WebLN::send_multi_payment`: every invoice string is converted to a
raw JS string and the whole list is forwarded as one array argument — no
per-element emptiness pre-check is performed. -/
def WebLN.send_multi_payment (h : Host) (invoices : List String) :
    Except Error SendMultiPaymentResponse × List HostEvent :=
  let invoicesArr : JsValue := JsValue.arr (invoices.map JsValue.str)
  match WebLN.get_func h SEND_MULTI_PAYMENT with
  | Except.error e => (Except.error e, [HostEvent.resolve SEND_MULTI_PAYMENT])
  | Except.ok f =>
    match f (some invoicesArr) with
    | Except.error ev =>
      (Except.error (Error.fromJs ev),
       [HostEvent.resolve SEND_MULTI_PAYMENT,
        HostEvent.invoke SEND_MULTI_PAYMENT (some invoicesArr)])
    | Except.ok result =>
      (SendMultiPaymentResponse.deserialize result,
       [HostEvent.resolve SEND_MULTI_PAYMENT,
        HostEvent.invoke SEND_MULTI_PAYMENT (some invoicesArr)])

/-- `WebLN::sign_message`: one `call1` with the raw message string; the
result is decoded as a `SignMessageResponse` (both of whose fields come
from the provider's result object). -/
def WebLN.sign_message (h : Host) (message : String) :
    Except Error SignMessageResponse × List HostEvent :=
  match WebLN.get_func h SIGN_MESSAGE with
  | Except.error e => (Except.error e, [HostEvent.resolve SIGN_MESSAGE])
  | Except.ok f =>
    match f (some (JsValue.str message)) with
    | Except.error ev =>
      (Except.error (Error.fromJs ev),
       [HostEvent.resolve SIGN_MESSAGE,
        HostEvent.invoke SIGN_MESSAGE (some (JsValue.str message))])
    | Except.ok result =>
      (SignMessageResponse.deserialize result,
       [HostEvent.resolve SIGN_MESSAGE,
        HostEvent.invoke SIGN_MESSAGE (some (JsValue.str message))])

/-- A provider whose `signMessage` echoes a message different from the
caller's, with a valid signature field. -/
def signTamperHost : Host :=
  ⟨fun _ => some (fun _ => Except.ok (JsValue.obj
    [("message", JsValue.str "tampered"), ("signature", JsValue.str "sig")]))⟩

/-- C1 counterexample: a provider result whose `message` field is
"tampered" makes `sign_message "original"` succeed with message
"tampered" — the decoder re-reads the provider's `message` field rather
than substituting the caller's original string. -/
theorem sign_message_not_caller_echo_cex :
    (WebLN.sign_message signTamperHost "original").fst =
      Except.ok ⟨"tampered", "sig"⟩
    ∧ ("tampered" : String) ≠ "original" :=
  ⟨rfl, by decide⟩

/-- C1 (corrected): when the host call resolves, `sign_message` returns
exactly the decoder's reading of the provider's result value, and the
decoder takes the `message` field from the provider's result object (a
required string), so the returned message is the provider's echo, not
the caller's original string. -/
theorem sign_message_reads_provider_message :
    (∀ (h : Host) (f : HostFunc) (m : String) (v : JsValue),
      h.methods SIGN_MESSAGE = some f →
      f (some (JsValue.str m)) = Except.ok v →
      (WebLN.sign_message h m).fst = SignMessageResponse.deserialize v)
    ∧ (∀ (fields : List (String × JsValue)) (msg sig : String),
      objGet fields "message" = JsValue.str msg →
      objGet fields "signature" = JsValue.str sig →
      SignMessageResponse.deserialize (JsValue.obj fields) = Except.ok ⟨msg, sig⟩) := by
  constructor
  · intro h f m v hm hf
    simp [WebLN.sign_message, WebLN.get_func, hm, hf]
  · intro fields msg sig hmsg hsig
    unfold SignMessageResponse.deserialize
    simp only [JsValue.dynIntoObject, get_value_by_key, hmsg, hsig]
    simp [JsValue.asString]

/-- C1 witness: the corrected statement applied to the tampering
provider at the concrete message "hello". -/
theorem sign_message_reads_provider_message_witness :
    (WebLN.sign_message signTamperHost "hello").fst =
      SignMessageResponse.deserialize (JsValue.obj
        [("message", JsValue.str "tampered"), ("signature", JsValue.str "sig")])
    ∧ SignMessageResponse.deserialize (JsValue.obj
        [("message", JsValue.str "tampered"), ("signature", JsValue.str "sig")]) =
      Except.ok ⟨"tampered", "sig"⟩ :=
  ⟨sign_message_reads_provider_message.1 signTamperHost _ "hello" _ rfl rfl,
   sign_message_reads_provider_message.2 _ "tampered" "sig" rfl rfl⟩

/-- C2 counterexample: a Multi-Payment result whose `errors` array holds
one element that is not an object makes the whole decode fail with
`SomethingGoneWrong` — the bad element is not skipped. -/
theorem multi_payment_bad_error_element_fails_cex :
    SendMultiPaymentResponse.deserialize
      (JsValue.obj [("errors", JsValue.arr [JsValue.str "bad"])]) =
      Except.error Error.somethingGoneWrong := rfl

/-- C2 (corrected): non-string entries of the `methods` list are
silently dropped, preserving the relative order of the remaining
strings; the `errors` list of a Multi-Payment result, however, is
decoded strictly — an element that fails to decode fails the whole
response with that element's error. -/
theorem list_decoding_methods_skip_errors_strict :
    (∀ (nodeFields : List (String × JsValue)) (ms : List JsValue),
      GetInfoResponse.deserialize
        (JsValue.obj [("node", JsValue.obj nodeFields), ("methods", JsValue.arr ms)]) =
        Except.ok ⟨⟨(objGet nodeFields "alias").asString,
                    (objGet nodeFields "pubkey").asString,
                    (objGet nodeFields "color").asString⟩,
                   (ms.filterMap JsValue.asString).map (fun m => GetInfoMethod.fromStr m)⟩)
    ∧ (∀ (bad : JsValue) (rest : List JsValue) (e : Error),
      SendMultiPaymentError.deserialize bad = Except.error e →
      SendMultiPaymentResponse.deserialize
        (JsValue.obj [("errors", JsValue.arr (bad :: rest))]) = Except.error e) := by
  constructor
  · intro nodeFields ms
    rfl
  · intro bad rest e hbad
    simp [SendMultiPaymentResponse.deserialize, get_value_by_key, objGet,
      List.lookup, JsValue.dynIntoObject, JsValue.dynIntoArray,
      deserializeMultiErrors, hbad]

/-- C2 witness: a methods array mixing strings and a number decodes to
the two strings in order; an errors array whose first element is bad
fails the whole response. -/
theorem list_decoding_methods_skip_errors_strict_witness :
    GetInfoResponse.deserialize
      (JsValue.obj [("node", JsValue.obj []),
        ("methods", JsValue.arr [JsValue.str "enable", JsValue.num 1, JsValue.str "zap"])]) =
      Except.ok ⟨⟨none, none, none⟩, [GetInfoMethod.enable, GetInfoMethod.other "zap"]⟩
    ∧ SendMultiPaymentResponse.deserialize
        (JsValue.obj [("errors", JsValue.arr [JsValue.str "bad", JsValue.obj []])]) =
        Except.error Error.somethingGoneWrong :=
  ⟨list_decoding_methods_skip_errors_strict.1 []
     [JsValue.str "enable", JsValue.num 1, JsValue.str "zap"],
   list_decoding_methods_skip_errors_strict.2 (JsValue.str "bad") [JsValue.obj []]
     Error.somethingGoneWrong rfl⟩

/-- C3: every value the Multi-Payment decoder accepts — including one
whose `payments` array is non-empty — decodes to a response whose
success list is the empty list; only `errors` is populated. -/
theorem multi_payment_payments_always_empty :
    ∀ (v : JsValue) (r : SendMultiPaymentResponse),
      SendMultiPaymentResponse.deserialize v = Except.ok r → r.payments = [] := by
  intro v r h
  unfold SendMultiPaymentResponse.deserialize at h
  repeat' split at h
  all_goals simp_all
  all_goals simp [← h]

/-- C3 witness: a provider result with a non-empty `payments` array and
an empty `errors` array decodes successfully, and the theorem applied
there yields the empty success list. -/
theorem multi_payment_payments_always_empty_witness :
    SendMultiPaymentResponse.deserialize
      (JsValue.obj
        [("payments", JsValue.arr [JsValue.obj
           [("paymentRequest", JsValue.str "lnbc1"), ("preimage", JsValue.str "00")]]),
         ("errors", JsValue.arr [])]) = Except.ok ⟨[], []⟩
    ∧ (⟨[], []⟩ : SendMultiPaymentResponse).payments = [] :=
  ⟨rfl,
   multi_payment_payments_always_empty
     (JsValue.obj
       [("payments", JsValue.arr [JsValue.obj
          [("paymentRequest", JsValue.str "lnbc1"), ("preimage", JsValue.str "00")]]),
        ("errors", JsValue.arr [])]) ⟨[], []⟩ rfl⟩

/-- C4: every known capability variant parses back from its canonical
string form, and any string matching no known literal parses to the open
variant carrying it, which prints back verbatim. -/
theorem get_info_method_round_trip :
    (∀ m : GetInfoMethod, (∀ s, m ≠ GetInfoMethod.other s) →
      GetInfoMethod.fromStr (GetInfoMethod.toStr m) = m)
    ∧ (∀ s : String, s ∉ knownMethodLiterals →
      GetInfoMethod.fromStr s = GetInfoMethod.other s
      ∧ GetInfoMethod.toStr (GetInfoMethod.other s) = s) := by
  constructor
  · intro m hm
    cases m <;> first
      | rfl
      | exact absurd rfl (hm _)
  · intro s hs
    simp only [knownMethodLiterals, List.mem_cons, List.not_mem_nil, or_false,
      not_or] at hs
    obtain ⟨h1, h2, h3, h4, h5, h6, h7, h8, h9, h10, h11, h12, h13, h14, h15⟩ := hs
    refine ⟨?_, rfl⟩
    simp [GetInfoMethod.fromStr, h1, h2, h3, h4, h5, h6, h7, h8, h9, h10,
      h11, h12, h13, h14, h15]

/-- C4 witness: the round trip at the known variant `sendPayment` and at
the unknown string "zap". -/
theorem get_info_method_round_trip_witness :
    GetInfoMethod.fromStr (GetInfoMethod.toStr GetInfoMethod.sendPayment) =
      GetInfoMethod.sendPayment
    ∧ GetInfoMethod.fromStr "zap" = GetInfoMethod.other "zap"
    ∧ GetInfoMethod.toStr (GetInfoMethod.other "zap") = "zap" :=
  ⟨get_info_method_round_trip.1 GetInfoMethod.sendPayment (fun _ h => nomatch h),
   (get_info_method_round_trip.2 "zap" (by decide)).1,
   (get_info_method_round_trip.2 "zap" (by decide)).2⟩

/-- C5: for every host, `send_payment ""` and `send_payment_async ""`
both fail with `EmptyInvoice` and perform no host event at all — the
method is never resolved and no host call is issued. -/
theorem empty_invoice_short_circuit :
    ∀ h : Host,
      WebLN.send_payment h "" = (Except.error Error.emptyInvoice, [])
      ∧ WebLN.send_payment_async h "" = (Except.error Error.emptyInvoice, []) :=
  fun _ => ⟨rfl, rfl⟩

/-- C6: the Invoice Request Args encoding contains exactly the keys of
the populated optional fields, in source order, and each amount is
serialized as its base-10 decimal string under its camelCase key. -/
theorem request_invoice_args_encoding_selectivity :
    ∀ args : RequestInvoiceArgs,
      (requestInvoiceArgsToObject args).map Prod.fst =
        (if args.amount.isSome then ["amount"] else [])
        ++ (if args.default_amount.isSome then ["defaultAmount"] else [])
        ++ (if args.minimum_amount.isSome then ["minimumAmount"] else [])
        ++ (if args.maximum_amount.isSome then ["maximumAmount"] else [])
        ++ (if args.default_memo.isSome then ["defaultMemo"] else [])
      ∧ (requestInvoiceArgsToObject args).lookup "amount" =
          args.amount.map (fun n => JsValue.str (Nat.repr n))
      ∧ (requestInvoiceArgsToObject args).lookup "defaultAmount" =
          args.default_amount.map (fun n => JsValue.str (Nat.repr n))
      ∧ (requestInvoiceArgsToObject args).lookup "minimumAmount" =
          args.minimum_amount.map (fun n => JsValue.str (Nat.repr n))
      ∧ (requestInvoiceArgsToObject args).lookup "maximumAmount" =
          args.maximum_amount.map (fun n => JsValue.str (Nat.repr n))
      ∧ (requestInvoiceArgsToObject args).lookup "defaultMemo" =
          args.default_memo.map JsValue.str := by
  rintro ⟨a, da, mina, maxa, memo⟩
  rcases a with _ | n1 <;> rcases da with _ | n2 <;> rcases mina with _ | n3 <;>
    rcases maxa with _ | n4 <;> rcases memo with _ | s5 <;>
    exact ⟨rfl, rfl, rfl, rfl, rfl, rfl⟩

/-- C7: the single `JsValue`-to-`Error` conversion classifies a failure
whose rendered form contains "User rejected" as `UserRejected` and wraps
any other failure as the generic `Wasm` kind carrying the rendered
string; a rejected host call surfaces exactly through this conversion
(shown at the `send_payment` and `sign_message` call sites). -/
theorem user_rejection_classification :
    (∀ e : JsValue, strContainsSub e.debugFmt "User rejected" = true →
      Error.fromJs e = Error.userRejected)
    ∧ (∀ e : JsValue, strContainsSub e.debugFmt "User rejected" = false →
      Error.fromJs e = Error.wasm e.debugFmt)
    ∧ (∀ (h : Host) (f : HostFunc) (invoice : String) (ev : JsValue),
      invoice ≠ "" → h.methods SEND_PAYMENT = some f →
      f (some (JsValue.str invoice)) = Except.error ev →
      (WebLN.send_payment h invoice).fst = Except.error (Error.fromJs ev))
    ∧ (∀ (h : Host) (f : HostFunc) (message : String) (ev : JsValue),
      h.methods SIGN_MESSAGE = some f →
      f (some (JsValue.str message)) = Except.error ev →
      (WebLN.sign_message h message).fst = Except.error (Error.fromJs ev)) := by
  refine ⟨?_, ?_, ?_, ?_⟩
  · intro e he
    simp [Error.fromJs, he]
  · intro e he
    simp [Error.fromJs, he]
  · intro h f invoice ev hne hm hf
    simp [WebLN.send_payment, WebLN.get_func, hne, hm, hf]
  · intro h f message ev hm hf
    simp [WebLN.sign_message, WebLN.get_func, hm, hf]

/-- A provider whose every method rejects with a user-refusal error
value. -/
def rejectingHost : Host :=
  ⟨fun _ => some (fun _ => Except.error (JsValue.str "Error: User rejected the request"))⟩

/-- C7 witness: a rejection rendering with the refusal substring
classifies as `UserRejected` (also end to end through `send_payment`),
and a plain "timeout" rejection classifies as the generic kind. -/
theorem user_rejection_classification_witness :
    Error.fromJs (JsValue.str "Error: User rejected the request") = Error.userRejected
    ∧ Error.fromJs (JsValue.str "timeout") =
        Error.wasm (JsValue.str "timeout").debugFmt
    ∧ (WebLN.send_payment rejectingHost "lnbc1").fst =
        Except.error (Error.fromJs (JsValue.str "Error: User rejected the request")) :=
  ⟨user_rejection_classification.1 _ (by decide),
   user_rejection_classification.2.1 _ (by decide),
   user_rejection_classification.2.2.1 rejectingHost _ "lnbc1" _ (by decide) rfl rfl⟩

/-- C8: each decoder with a single mandatory field — `preimage` for
`keysend`/`send_payment`, `paymentRequest` for `make_invoice`,
`signature` for `sign_message` (its `message` also being read as a
string), `balance` for `get_balance` — fails with the corresponding
`TypeMismatch` when that field is absent or not of the required type,
never substituting a default. -/
theorem required_field_strictness :
    (∀ fields : List (String × JsValue),
      (objGet fields "preimage").asString = none →
      SendPaymentResponse.deserialize (JsValue.obj fields) =
        Except.error (Error.typeMismatch "expected a string [preimage]"))
    ∧ (∀ fields : List (String × JsValue),
      (objGet fields "paymentRequest").asString = none →
      RequestInvoiceResponse.deserialize (JsValue.obj fields) =
        Except.error (Error.typeMismatch "expected a string [paymentRequest]"))
    ∧ (∀ (fields : List (String × JsValue)) (msg : String),
      objGet fields "message" = JsValue.str msg →
      (objGet fields "signature").asString = none →
      SignMessageResponse.deserialize (JsValue.obj fields) =
        Except.error (Error.typeMismatch "expected a string [signature]"))
    ∧ (∀ fields : List (String × JsValue),
      (objGet fields "balance").asF64 = none →
      BalanceResponse.deserialize (JsValue.obj fields) =
        Except.error (Error.typeMismatch "expected a number [balance]")) := by
  refine ⟨?_, ?_, ?_, ?_⟩
  · intro fields h
    simp [SendPaymentResponse.deserialize, JsValue.dynIntoObject, get_value_by_key, h]
  · intro fields h
    simp [RequestInvoiceResponse.deserialize, JsValue.dynIntoObject, get_value_by_key, h]
  · intro fields msg hmsg h
    unfold SignMessageResponse.deserialize
    simp only [JsValue.dynIntoObject, get_value_by_key, hmsg, h]
    simp [JsValue.asString]
  · intro fields h
    simp [BalanceResponse.deserialize, JsValue.dynIntoObject, get_value_by_key, h]

/-- C8 witness: the empty object (and, for `signMessage`, an object with
only a `message` string) fails each decoder with its `TypeMismatch`. -/
theorem required_field_strictness_witness :
    SendPaymentResponse.deserialize (JsValue.obj []) =
      Except.error (Error.typeMismatch "expected a string [preimage]")
    ∧ RequestInvoiceResponse.deserialize (JsValue.obj []) =
      Except.error (Error.typeMismatch "expected a string [paymentRequest]")
    ∧ SignMessageResponse.deserialize (JsValue.obj [("message", JsValue.str "m")]) =
      Except.error (Error.typeMismatch "expected a string [signature]")
    ∧ BalanceResponse.deserialize (JsValue.obj []) =
      Except.error (Error.typeMismatch "expected a number [balance]") :=
  ⟨required_field_strictness.1 [] rfl,
   required_field_strictness.2.1 [] rfl,
   required_field_strictness.2.2.1 [("message", JsValue.str "m")] "m" rfl rfl,
   required_field_strictness.2.2.2 [] rfl⟩

/-- C9: the optional fields `alias`, `pubkey`, `color` and `currency`
are read permissively: the decoders succeed with the field set to the
permissive `as_string` reading, which is `none` whenever the value under
the key is absent or not a string — never an error. -/
theorem optional_fields_permissive :
    (∀ (nodeFields : List (String × JsValue)) (ms : List JsValue),
      GetInfoResponse.deserialize
        (JsValue.obj [("node", JsValue.obj nodeFields), ("methods", JsValue.arr ms)]) =
        Except.ok ⟨⟨(objGet nodeFields "alias").asString,
                    (objGet nodeFields "pubkey").asString,
                    (objGet nodeFields "color").asString⟩,
                   (ms.filterMap JsValue.asString).map (fun m => GetInfoMethod.fromStr m)⟩)
    ∧ (∀ (fields : List (String × JsValue)) (x : Rat),
      objGet fields "balance" = JsValue.num x →
      BalanceResponse.deserialize (JsValue.obj fields) =
        Except.ok ⟨x, (objGet fields "currency").asString⟩)
    ∧ (∀ v : JsValue, (∀ s, v ≠ JsValue.str s) → v.asString = none) := by
  refine ⟨?_, ?_, ?_⟩
  · intro nodeFields ms
    rfl
  · intro fields x hx
    simp [BalanceResponse.deserialize, JsValue.dynIntoObject, get_value_by_key,
      hx, JsValue.asF64]
  · intro v hv
    cases v <;> first
      | rfl
      | exact absurd rfl (hv _)

/-- C9 witness: a node object with a wrongly typed `pubkey` and absent
`alias`/`color` decodes with all three `none`; a balance object with no
`currency` decodes with `currency = none`. -/
theorem optional_fields_permissive_witness :
    GetInfoResponse.deserialize
      (JsValue.obj [("node", JsValue.obj [("pubkey", JsValue.num 7)]),
        ("methods", JsValue.arr [])]) =
      Except.ok ⟨⟨none, none, none⟩, []⟩
    ∧ BalanceResponse.deserialize (JsValue.obj [("balance", JsValue.num 21)]) =
      Except.ok ⟨21, none⟩
    ∧ (JsValue.num 7).asString = none :=
  ⟨optional_fields_permissive.1 [("pubkey", JsValue.num 7)] [],
   optional_fields_permissive.2.1 [("balance", JsValue.num 21)] 21 rfl,
   optional_fields_permissive.2.2 (JsValue.num 7) (fun _ h => nomatch h)⟩

/-- No failure value classifies as `EmptyInvoice`. -/
theorem fromJs_ne_emptyInvoice : ∀ ev : JsValue, Error.fromJs ev ≠ Error.emptyInvoice := by
  intro ev
  simp only [Error.fromJs]
  split
  · exact fun hcon => nomatch hcon
  · exact fun hcon => nomatch hcon

/-- The per-element Multi-Payment error decoder never produces
`EmptyInvoice`. -/
theorem multiErr_deserialize_ne_emptyInvoice :
    ∀ v : JsValue,
      SendMultiPaymentError.deserialize v ≠ Except.error Error.emptyInvoice := by
  intro v
  unfold SendMultiPaymentError.deserialize
  repeat' split
  all_goals simp_all [get_value_by_key]

/-- The Multi-Payment error-list decoder never produces `EmptyInvoice`. -/
theorem multiErrors_ne_emptyInvoice :
    ∀ l : List JsValue,
      deserializeMultiErrors l ≠ Except.error Error.emptyInvoice := by
  intro l
  induction l with
  | nil => exact fun hcon => nomatch hcon
  | cons e rest ih =>
    intro hcon
    unfold deserializeMultiErrors at hcon
    split at hcon
    · next err heq =>
      injection hcon with h
      subst h
      exact multiErr_deserialize_ne_emptyInvoice e heq
    · next one heq =>
      split at hcon
      · next err heq2 =>
        injection hcon with h
        subst h
        exact ih heq2
      · exact nomatch hcon

/-- The Multi-Payment response decoder never produces `EmptyInvoice`. -/
theorem multiResp_ne_emptyInvoice :
    ∀ v : JsValue,
      SendMultiPaymentResponse.deserialize v ≠ Except.error Error.emptyInvoice := by
  intro v hcon
  unfold SendMultiPaymentResponse.deserialize at hcon
  cases hobj : v.dynIntoObject with
  | none =>
    simp only [hobj] at hcon
    injection hcon with h
    exact nomatch h
  | some obj =>
    simp only [hobj, get_value_by_key] at hcon
    cases harr : (objGet obj "errors").dynIntoArray with
    | none =>
      simp only [harr] at hcon
      injection hcon with h
      exact fromJs_ne_emptyInvoice _ h
    | some jsErrors =>
      simp only [harr] at hcon
      cases herrs : deserializeMultiErrors jsErrors with
      | error err =>
        simp only [herrs] at hcon
        injection hcon with h
        subst h
        exact multiErrors_ne_emptyInvoice jsErrors herrs
      | ok errors =>
        simp only [herrs] at hcon
        exact nomatch hcon

/-- C10: `send_multi_payment` performs no per-element `EmptyInvoice`
pre-check — its outcome is never `EmptyInvoice` for any invoice list —
and, whenever the provider method resolves, the whole list is forwarded
as-is as a single array of raw strings. -/
theorem multi_payment_no_empty_invoice_check :
    ∀ (h : Host) (invoices : List String),
      (WebLN.send_multi_payment h invoices).fst ≠ Except.error Error.emptyInvoice
      ∧ (∀ f : HostFunc, h.methods SEND_MULTI_PAYMENT = some f →
          (WebLN.send_multi_payment h invoices).snd =
            [HostEvent.resolve SEND_MULTI_PAYMENT,
             HostEvent.invoke SEND_MULTI_PAYMENT
               (some (JsValue.arr (invoices.map JsValue.str)))]) := by
  intro h invoices
  constructor
  · unfold WebLN.send_multi_payment WebLN.get_func
    cases hm : h.methods SEND_MULTI_PAYMENT with
    | none => simp
    | some f =>
      simp only []
      cases hr : f (some (JsValue.arr (invoices.map JsValue.str))) with
      | error ev =>
        simp [hr]
        exact fun hcon => fromJs_ne_emptyInvoice ev hcon
      | ok result =>
        simp [hr]
        exact fun hcon => multiResp_ne_emptyInvoice result hcon
  · intro f hm
    simp only [WebLN.send_multi_payment, WebLN.get_func, hm]
    cases hr : f (some (JsValue.arr (invoices.map JsValue.str))) <;> simp [hr]

/-- A stub provider that resolves `sendMultiPayment` with an empty
errors object. -/
def multiStubHost : Host :=
  ⟨fun _ => some (fun _ => Except.ok (JsValue.obj [("errors", JsValue.arr [])]))⟩

/-- C10 witness: a list containing the empty invoice string is forwarded
verbatim to the provider and does not produce `EmptyInvoice`. -/
theorem multi_payment_no_empty_invoice_check_witness :
    (WebLN.send_multi_payment multiStubHost ["", "lnbc1"]).fst ≠
      Except.error Error.emptyInvoice
    ∧ (WebLN.send_multi_payment multiStubHost ["", "lnbc1"]).snd =
        [HostEvent.resolve SEND_MULTI_PAYMENT,
         HostEvent.invoke SEND_MULTI_PAYMENT
           (some (JsValue.arr [JsValue.str "", JsValue.str "lnbc1"]))] :=
  ⟨(multi_payment_no_empty_invoice_check multiStubHost ["", "lnbc1"]).1,
   (multi_payment_no_empty_invoice_check multiStubHost ["", "lnbc1"]).2 _ rfl⟩

end Webln
